import Mathlib

/-!
Verification of the `ub-tools/coding-style` repository, whose single source
file `src/example.py` consists of an author comment on line 1 and a module
doc string on lines 3 to 14.  We embed the file at two levels: the verbatim
line text together with a scanner that splits a Python file into comment
items and statements, and a small statement language with an operational
semantics (namespace, printed output, module doc attribute, external
environment, fuel for loops) rich enough that the claims about the module
being inert are not vacuous.
-/

namespace CodingStyle

/-- The lines of `src/example.py`, verbatim.  The file ends directly after
the closing triple quote, with no trailing newline. -/
def example_py_lines : List String :=
  [ "# Ethan Blanton <eblanton@buffalo.edu>"
  , ""
  , "\"\"\"UB CSE Python coding style example."
  , ""
  , "This file contains the UB CSE coding style for Python.  It is rather"
  , "straightforward, as it incorporates directly"
  , "PEP 8 (https://www.python.org/dev/peps/pep-0008/) for basic formatting"
  , "and PEP 257 (https://www.python.org/dev/peps/pep-0257/) for"
  , "documentation.  You should read and understand those documents."
  , ""
  , "Every file should have the author and contact point (e.g., email"
  , "address) in a comment on the first line, and its first statement should"
  , "be a PEP 257 doc string (like this one) describing the file contents."
  , "\"\"\"" ]

/-- The first line of the file. -/
def firstLine : String := "# Ethan Blanton <eblanton@buffalo.edu>"

/-- The value of the string literal spanning lines 3 to 14 of the file:
everything between the opening and the closing triple quote. -/
def example_doc : String :=
  "UB CSE Python coding style example.\n\nThis file contains the UB CSE coding style for Python.  It is rather\nstraightforward, as it incorporates directly\nPEP 8 (https://www.python.org/dev/peps/pep-0008/) for basic formatting\nand PEP 257 (https://www.python.org/dev/peps/pep-0257/) for\ndocumentation.  You should read and understand those documents.\n\nEvery file should have the author and contact point (e.g., email\naddress) in a comment on the first line, and its first statement should\nbe a PEP 257 doc string (like this one) describing the file contents.\n"

/-- Python expressions, shallowly: string and integer literals, a name
lookup, and an environment-variable read (the way a non-inert module would
observe its surroundings). -/
inductive Expr where
  | strLit (s : String)
  | intLit (n : Int)
  | name (x : String)
  | getenv (x : String)

/-- Python runtime values as far as a module body can bind them. -/
inductive Value where
  | str (s : String)
  | int (n : Int)
  | pynone
  | func
  | cls

/-- Python statements as far as a module body can contain them: expression
statements (a bare string literal is one), assignments, function and class
definitions, printing, raising, and an unbounded loop. -/
inductive Stmt where
  | exprStmt (e : Expr)
  | assign (x : String) (e : Expr)
  | funcDef (f : String)
  | classDef (c : String)
  | printStmt (e : Expr)
  | raiseStmt (msg : String)
  | whileTrue (body : List Stmt)

/-- A top-level item of a Python file: a comment line or a statement. -/
inductive Item where
  | comment (text : String)
  | stmt (s : Stmt)

/-- The Python triple quote. -/
def tq : String := "\"\"\""

/-- Whether the first list is an initial segment of the second. -/
def isPrefixL : List Char → List Char → Bool
  | [], _ => true
  | _ :: _, [] => false
  | a :: as, b :: bs => a == b && isPrefixL as bs

/-- Whether the first list is a final segment of the second. -/
def isSuffixL (p s : List Char) : Bool := isPrefixL p.reverse s.reverse

/-- Whether the first list occurs contiguously inside the second. -/
def isInfixL (p : List Char) : List Char → Bool
  | [] => p.isEmpty
  | c :: rest => isPrefixL p (c :: rest) || isInfixL p rest

/-- Whether `p` starts the string `s`. -/
def strStarts (s p : String) : Bool := isPrefixL p.data s.data

/-- Whether `p` ends the string `s`. -/
def strEnds (s p : String) : Bool := isSuffixL p.data s.data

/-- Whether `p` occurs inside the string `s`. -/
def strContains (s p : String) : Bool := isInfixL p.data s.data

/-- ASCII whitespace, as Python strips it from source lines. -/
def isWS (c : Char) : Bool := c == ' ' || c == '\t' || c == '\n' || c == '\r'

/-- The string with leading and trailing whitespace removed. -/
def strTrim (s : String) : String :=
  String.mk (((s.data.dropWhile isWS).reverse.dropWhile isWS).reverse)

/-- The string without its first `n` characters. -/
def strDrop (s : String) (n : Nat) : String := String.mk (s.data.drop n)

/-- The string without its last `n` characters. -/
def strDropEnd (s : String) (n : Nat) : String :=
  String.mk (s.data.take (s.data.length - n))

/-- A comment line: its first non-blank character is a hash. -/
def isCommentLine (l : String) : Bool := strStarts (strTrim l) "#"

/-- Scanner state: at top level, or inside a triple-quoted string with the
content accumulated so far. -/
inductive ScanState where
  | top
  | inStr (acc : String)

/-- Process one line of a Python file.  At top level a blank line is
skipped, a comment line becomes a comment item, and a triple quote opens a
string literal (closing on the same line when possible); any other content
is outside the fragment we model.  Inside a string literal, a line ending
with the triple quote closes it into an expression statement, and any other
line is accumulated with its newline. -/
def stepLine : ScanState → String → Option (ScanState × List Item)
  | ScanState.top, l =>
      if strTrim l = "" then some (ScanState.top, [])
      else if isCommentLine l then some (ScanState.top, [Item.comment l])
      else if strStarts l tq then
        let r := strDrop l 3
        if strEnds r tq then
          some (ScanState.top, [Item.stmt (Stmt.exprStmt (Expr.strLit (strDropEnd r 3)))])
        else
          some (ScanState.inStr (r ++ "\n"), [])
      else none
  | ScanState.inStr acc, l =>
      if strEnds l tq then
        some (ScanState.top, [Item.stmt (Stmt.exprStmt (Expr.strLit (acc ++ strDropEnd l 3)))])
      else some (ScanState.inStr (acc ++ l ++ "\n"), [])

/-- Scan a list of lines from a given state.  An unterminated string
literal is a scan failure. -/
def scanLines : ScanState → List String → Option (List Item)
  | ScanState.top, [] => some []
  | ScanState.inStr _, [] => none
  | st, l :: rest =>
      match stepLine st l with
      | none => none
      | some (st2, items) =>
          match scanLines st2 rest with
          | none => none
          | some more => some (items ++ more)

/-- Split a Python file into its top-level items. -/
def parseItems (lines : List String) : Option (List Item) :=
  scanLines ScanState.top lines

/-- The statements of a list of items, comments dropped. -/
def stmtsOfItems (items : List Item) : List Stmt :=
  items.filterMap fun i =>
    match i with
    | Item.stmt s => some s
    | Item.comment _ => none

/-- The statement list of a Python file. -/
def parseModule (lines : List String) : Option (List Stmt) :=
  (parseItems lines).map stmtsOfItems

/-- The external world a module evaluation could observe: command-line
arguments, environment variables, and file-system contents. -/
structure PyEnv where
  argv : List String
  environ : List (String × String)
  files : List (String × String)

/-- The state a module evaluation builds: the names bound in the module
namespace, the output printed so far, and the module doc attribute. -/
structure ModuleState where
  names : List (String × Value)
  output : List String
  doc : Option String

/-- Ways a module evaluation can fail: a raised exception, an unbound
name, or exhaustion of the loop fuel. -/
inductive PyError where
  | exc (msg : String)
  | nameError (x : String)
  | nonTermination

/-- Evaluate an expression in an environment and a module state. -/
def evalExpr (env : PyEnv) (st : ModuleState) : Expr → Except PyError Value
  | Expr.strLit s => Except.ok (Value.str s)
  | Expr.intLit n => Except.ok (Value.int n)
  | Expr.name x =>
      match st.names.lookup x with
      | some v => Except.ok v
      | none => Except.error (PyError.nameError x)
  | Expr.getenv x =>
      match env.environ.lookup x with
      | some v => Except.ok (Value.str v)
      | none => Except.ok Value.pynone

/-- How a value prints. -/
def strOfValue : Value → String
  | Value.str s => s
  | Value.int n => toString n
  | Value.pynone => "None"
  | Value.func => "function"
  | Value.cls => "class"

/-- Execute a statement list.  A bare expression statement evaluates its
expression and discards the value; an assignment or a definition binds a
name; printing appends to the output; raising aborts.  Fuel is consumed
only when a loop is unfolded, so a straight-line body runs under any
fuel. -/
def execStmts (env : PyEnv) : Nat → ModuleState → List Stmt → Except PyError ModuleState
  | _, st, [] => Except.ok st
  | fuel, st, s :: rest =>
    match s with
    | Stmt.exprStmt e =>
        match evalExpr env st e with
        | Except.error err => Except.error err
        | Except.ok _ => execStmts env fuel st rest
    | Stmt.assign x e =>
        match evalExpr env st e with
        | Except.error err => Except.error err
        | Except.ok v =>
            execStmts env fuel { st with names := (x, v) :: st.names } rest
    | Stmt.funcDef f =>
        execStmts env fuel { st with names := (f, Value.func) :: st.names } rest
    | Stmt.classDef c =>
        execStmts env fuel { st with names := (c, Value.cls) :: st.names } rest
    | Stmt.printStmt e =>
        match evalExpr env st e with
        | Except.error err => Except.error err
        | Except.ok v =>
            execStmts env fuel { st with output := st.output ++ [strOfValue v] } rest
    | Stmt.raiseStmt msg => Except.error (PyError.exc msg)
    | Stmt.whileTrue body =>
        match fuel with
        | 0 => Except.error PyError.nonTermination
        | fuel2 + 1 => execStmts env fuel2 st (body ++ Stmt.whileTrue body :: rest)
  termination_by fuel _ stmts => (fuel, stmts.length)

/-- The doc attribute a module gets: the value of its first statement when
that statement is a bare string literal. -/
def docstringOf : List Stmt → Option String
  | Stmt.exprStmt (Expr.strLit s) :: _ => some s
  | _ => none

/-- The state a module evaluation starts from: an empty namespace, no
output, and the doc attribute taken from the statement list. -/
def initState (stmts : List Stmt) : ModuleState :=
  { names := [], output := [], doc := docstringOf stmts }

/-- Evaluate a module: run its statements from the initial state. -/
def evalModule (env : PyEnv) (fuel : Nat) (stmts : List Stmt) :
    Except PyError ModuleState :=
  execStmts env fuel (initState stmts) stmts

/-- The statement list of `example.py`: a single expression statement whose
expression is the doc string literal. -/
def example_module : List Stmt := [Stmt.exprStmt (Expr.strLit example_doc)]

/-- The module state `example.py` evaluates to. -/
def exampleFinal : ModuleState :=
  { names := [], output := [], doc := some example_doc }

set_option maxRecDepth 8000

/-- Scanning the file yields exactly one comment item, the author line,
followed by one statement item, the doc string literal. -/
theorem parseItems_example :
    parseItems example_py_lines =
      some [Item.comment firstLine,
            Item.stmt (Stmt.exprStmt (Expr.strLit example_doc))] := by
  rfl

/-- The statement list of the file is the single doc string statement. -/
theorem parseModule_example :
    parseModule example_py_lines = some example_module := by
  rfl

/-- Executing the body of `example.py` from any state returns that state
unchanged: the one expression statement evaluates a string literal and
discards it. -/
theorem execStmts_example (env : PyEnv) (fuel : Nat) (st : ModuleState) :
    execStmts env fuel st example_module = Except.ok st := by
  simp [execStmts, evalExpr, example_module]

/-- Evaluating the module `example.py` succeeds, under every environment
and every fuel, in the state holding only the doc attribute. -/
theorem evalModule_example (env : PyEnv) (fuel : Nat) :
    evalModule env fuel example_module = Except.ok exampleFinal :=
  execStmts_example env fuel (initState example_module)

/-- C1: evaluating the module defines no behavior and performs no
operation beyond binding the module doc string: under every environment
and every fuel, evaluation succeeds in a state whose namespace holds no
function, class or variable and whose output is empty. -/
theorem C1_module_defines_nothing (env : PyEnv) (fuel : Nat) :
    evalModule env fuel example_module = Except.ok exampleFinal ∧
    exampleFinal.names = [] ∧ exampleFinal.output = [] :=
  ⟨evalModule_example env fuel, rfl, rfl⟩

/-- C2: evaluating the module can never fail: under every environment and
every fuel, evaluation returns a success value and never an error. -/
theorem C2_module_never_fails (env : PyEnv) (fuel : Nat) :
    (∃ st, evalModule env fuel example_module = Except.ok st) ∧
    ∀ err : PyError, evalModule env fuel example_module ≠ Except.error err := by
  refine ⟨⟨exampleFinal, evalModule_example env fuel⟩, fun err h => ?_⟩
  rw [evalModule_example env fuel] at h
  exact Except.noConfusion h

/-- C3: the entire content of the file is a comment and a doc string: the
scanner finds exactly one comment line, the first line, followed by a
single string-literal statement, and the file holds no other statement of
any kind. -/
theorem C3_file_is_comment_and_docstring :
    parseItems example_py_lines =
      some [Item.comment firstLine,
            Item.stmt (Stmt.exprStmt (Expr.strLit example_doc))] ∧
    isCommentLine firstLine = true ∧
    parseModule example_py_lines = some [Stmt.exprStmt (Expr.strLit example_doc)] :=
  ⟨parseItems_example, by decide, parseModule_example⟩

/-- C4: module evaluation is deterministic and independent of external
input: any two evaluations, under any command-line arguments, environment
variables or file-system contents, and any fuel, produce identical module
states, fixed by the static text of the file. -/
theorem C4_module_eval_deterministic (env1 env2 : PyEnv) (fuel1 fuel2 : Nat) :
    evalModule env1 fuel1 example_module = evalModule env2 fuel2 example_module ∧
    evalModule env1 fuel1 example_module = Except.ok exampleFinal :=
  ⟨(evalModule_example env1 fuel1).trans (evalModule_example env2 fuel2).symm,
   evalModule_example env1 fuel1⟩

/-- C5: evaluating the module always terminates: under every environment,
evaluation completes with a result even with no loop fuel at all, and
never reports loop-fuel exhaustion. -/
theorem C5_module_eval_terminates (env : PyEnv) (fuel : Nat) :
    evalModule env fuel example_module ≠ Except.error PyError.nonTermination ∧
    ∃ st, evalModule env fuel example_module = Except.ok st := by
  refine ⟨fun h => ?_, exampleFinal, evalModule_example env fuel⟩
  rw [evalModule_example env fuel] at h
  exact Except.noConfusion h

/-- C6: the module introduces no entities and no state: running its body
from any prior state succeeds and every predicate that held of the state
before still holds after. -/
theorem C6_module_preserves_state (env : PyEnv) (fuel : Nat)
    (st : ModuleState) (P : ModuleState → Prop) (h : P st) :
    ∃ st2, execStmts env fuel st example_module = Except.ok st2 ∧ P st2 :=
  ⟨st, execStmts_example env fuel st, h⟩

/-- Witness for C6 at a concrete environment, fuel, state and predicate. -/
theorem C6_module_preserves_state_witness :
    ∃ st2, execStmts (PyEnv.mk [] [] []) 0 (ModuleState.mk [] [] none)
        example_module = Except.ok st2 ∧ st2.names = [] :=
  C6_module_preserves_state (PyEnv.mk [] [] []) 0 (ModuleState.mk [] [] none)
    (fun s => s.names = []) rfl

/-- C7: after evaluation the module doc attribute equals exactly the
string literal spanning lines 3 to 14 of the file, which begins with the
sentence naming the UB CSE Python coding style example. -/
theorem C7_module_doc_attribute (env : PyEnv) (fuel : Nat) :
    (∃ st, evalModule env fuel example_module = Except.ok st ∧
        st.doc = some example_doc) ∧
    parseModule example_py_lines = some example_module ∧
    strStarts example_doc "UB CSE Python coding style example." = true :=
  ⟨⟨exampleFinal, evalModule_example env fuel, rfl⟩, parseModule_example, by decide⟩

/-- C8: the file satisfies the convention its own doc string prescribes:
its first line is a comment holding the author name and an email contact
point, and its first statement is the doc string. -/
theorem C8_file_follows_own_convention :
    example_py_lines.head? = some firstLine ∧
    isCommentLine firstLine = true ∧
    strContains firstLine "Ethan Blanton" = true ∧
    strContains firstLine "eblanton@buffalo.edu" = true ∧
    (parseModule example_py_lines).bind docstringOf = some example_doc := by
  refine ⟨rfl, by decide, by decide, by decide, ?_⟩
  rw [parseModule_example]
  rfl

end CodingStyle
